import Mathlib

/-!
Shallow embedding of `misc/config_tools/configurator/pyodide/verifyBDFCollision.py`.

Strings manipulated by the Python code (addresses, board lines) are modelled as
`List Char`; VM names and load-order tags, which are only compared for equality,
are modelled as `String`.  A Python function that can raise is modelled as an
`Except PyErr` value; the Python value `None` (e.g. falling off the end of
`validate_load_order`, or a not-configured category) is modelled with `Option`.
-/

/-- Python exceptions that the modelled code can raise. -/
inductive PyErr where
  | valueError : PyErr
deriving DecidableEq, Repr

instance {ε α : Type} [DecidableEq ε] [DecidableEq α] : DecidableEq (Except ε α)
  | .ok a, .ok b => if h : a = b then .isTrue (by rw [h]) else .isFalse (by simp [h])
  | .ok _, .error _ => .isFalse (by simp)
  | .error _, .ok _ => .isFalse (by simp)
  | .error a, .error b => if h : a = b then .isTrue (by rw [h]) else .isFalse (by simp [h])

/-- Character class `[0-9a-fA-F]` of the regex in `validate_`. -/
def isHexChar (c : Char) : Bool :=
  ('0' ≤ c && c ≤ '9') || ('a' ≤ c && c ≤ 'f') || ('A' ≤ c && c ≤ 'F')

/-- Character class `[0-1]` (high device digit) of the regex in `validate_`. -/
def isDevHi (c : Char) : Bool :=
  c = '0' || c = '1'

/-- Character class `[0-7]` (function digit) of the regex in `validate_`. -/
def isFuncChar (c : Char) : Bool :=
  '0' ≤ c && c ≤ '7'

/-- Numeric value of a hex digit (meaningful only when `isHexChar c`). -/
def hexVal (c : Char) : Nat :=
  if '0' ≤ c && c ≤ '9' then c.toNat - '0'.toNat
  else if 'a' ≤ c && c ≤ 'f' then c.toNat - 'a'.toNat + 10
  else c.toNat - 'A'.toNat + 10

/-- Python `int('0x' + s, 16)`: succeeds iff `s` is a non-empty string of hex
digits, otherwise raises `ValueError` (`none` here). -/
def parseHexStr (l : List Char) : Option Nat :=
  if l ≠ [] && l.all isHexChar then
    some (l.foldl (fun a c => 16 * a + hexVal c) 0)
  else
    none

/-- The lambda `check_` inside `validate_load_order`:
`lambda x: True if (t := int('0x' + x[3:5], 16)) >= 3 and t < 31 else False`.
`x[3:5]` is the slice of characters 3 and 4. -/
def check_ (x : List Char) : Except PyErr Bool :=
  match parseHexStr ((x.drop 3).take 2) with
  | none => .error .valueError
  | some t => .ok (3 ≤ t && t < 31)

/-- A `<vm>` record of the scenario: its `name/text()` and `load_order/text()`
(already stripped, as the Python code strips both on extraction). -/
structure VM where
  name : String
  load_order : String
deriving DecidableEq, Repr

/-- Model of `validate_load_order(base, name, vbdf)`: walk the scenario's `vm` list; on
the first VM whose name matches, return `True` if it is not post-launched, else
the result of `check_ vbdf`; if no VM matches, Python falls off the loop and
returns `None` (`ok none`). -/
def validate_load_order (vms : List VM) (name : String) (vbdf : List Char) :
    Except PyErr (Option Bool) :=
  match vms with
  | [] => .ok none
  | vm :: rest =>
    if vm.name = name && vm.load_order ≠ "POST_LAUNCHED_VM" then
      .ok (some true)
    else if vm.name = name && vm.load_order = "POST_LAUNCHED_VM" then
      (check_ vbdf).map some
    else
      validate_load_order rest name vbdf

/-- The two-digit-bus alternative of the group
`([0-9a-fA-F]{1,2}:[0-1][0-9A-Fa-f]\.[0-7])`, tried at the head of `l`; the
trailing `.*` of the pattern always matches and contributes nothing to the
group. -/
def matchAt2 (l : List Char) : Option (List Char) :=
  match l with
  | b1 :: b2 :: ':' :: d1 :: d2 :: '.' :: f :: _ =>
    if isHexChar b1 && isHexChar b2 && isDevHi d1 && isHexChar d2 && isFuncChar f then
      some [b1, b2, ':', d1, d2, '.', f]
    else none
  | _ => none

/-- The one-digit-bus alternative of the same group at the head of `l`. -/
def matchAt1 (l : List Char) : Option (List Char) :=
  match l with
  | b1 :: ':' :: d1 :: d2 :: '.' :: f :: _ =>
    if isHexChar b1 && isDevHi d1 && isHexChar d2 && isFuncChar f then
      some [b1, ':', d1, d2, '.', f]
    else none
  | _ => none

/-- Match the whole group at the head of `l`: the greedy `{1,2}` quantifier
tries the two-digit bus first and backtracks to the one-digit bus. -/
def matchAt (l : List Char) : Option (List Char) :=
  match matchAt2 l with
  | some m => some m
  | none => matchAt1 l

/-- Model of `re.search`: try `matchAt` at every position left to right, returning the
group of the leftmost match. -/
def searchShape : List Char → Option (List Char)
  | [] => none
  | c :: rest =>
    match matchAt (c :: rest) with
    | some m => some m
    | none => searchShape rest

/-- Python `str.strip()` whitespace set (ASCII part). -/
def isPySpace (c : Char) : Bool :=
  c = ' ' || c = '\t' || c = '\n' || c = '\x0d' || c = '\x0b' || c = '\x0c'

/-- Python `str.strip()`. -/
def pstrip (l : List Char) : List Char :=
  ((l.dropWhile isPySpace).reverse.dropWhile isPySpace).reverse

/-- Model of `validate_(bdf)`: strip, search for the BDF shape, and return the matched
group (which is non-empty, so its own `.strip()` is itself and it is truthy);
return `""` (here `[]`) when the search fails. -/
def validate_ (bdf : List Char) : List Char :=
  match searchShape (pstrip bdf) with
  | some m1 => m1
  | none => []

example : validate_ "00:1f.0  Intel ISA bridge".toList = "00:1f.0".toList := by decide
example : validate_ "  a:05.0".toList = "a:05.0".toList := by decide
example : validate_ "x00:02.0".toList = "00:02.0".toList := by decide
example : validate_ "garbage".toList = [] := by decide
example : validate_ "00:2f.0".toList = [] := by decide
example : check_ "00:1e.0".toList = .ok true := by decide
example : check_ "00:02.0".toList = .ok false := by decide
example : check_ "a:05.0".toList = .error .valueError := by decide
example : check_ [] = .error .valueError := by decide
example : validate_load_order [⟨"X", "POST_LAUNCHED_VM"⟩] "X" "00:05.0".toList
    = .ok (some true) := by decide
example : validate_load_order [⟨"X", "POST_LAUNCHED_VM"⟩] "Y" "00:05.0".toList
    = .ok none := by decide

/-- One `endpoint` of a `vuart_connection` (or one `IVSHMEM_VM` of an
`IVSHMEM_REGION`): the referenced VM name (text already stripped) and the raw
`vbdf` text. -/
structure Endpoint where
  vm_name : String
  vbdf : List Char
deriving DecidableEq, Repr

/-- A `vuart_connection` element: its list of `endpoint` children. -/
structure Connection where
  endpoints : List Endpoint
deriving DecidableEq, Repr

/-- An `IVSHMEM_REGION` element: its `IVSHMEM_VMS/IVSHMEM_VM` children. -/
structure IvshmemRegion where
  ivshmem_vms : List Endpoint
deriving DecidableEq, Repr

/-- The data a `VBDFValidator` instance reads from the parsed board and
scenario documents (the XML decoding itself is an external collaborator):
- `board_lines`: `/acrn-config/PCI_DEVICE/text()` split on newlines;
- `vms`: the scenario's `vm` records (name and load order);
- `debug_vuart`: `hv/DEBUG_OPTIONS/VUART_VBDF/text()` when present;
- `vuart_connections`: `hv/vuart_connections/vuart_connection`;
- `ivshmem_regions`: `hv/FEATURES/IVSHMEM/IVSHMEM_REGION`. -/
structure VState where
  board_lines : List (List Char)
  vms : List VM
  debug_vuart : Option (List Char)
  vuart_connections : List Connection
  ivshmem_regions : List IvshmemRegion
deriving DecidableEq, Repr

/-- Python `dict.get(k)` on an insertion-ordered dict modelled as an
association list. -/
def dictGet {α : Type} (d : List (String × α)) (k : String) : Option α :=
  match d with
  | [] => none
  | (k2, v) :: rest => if k2 = k then some v else dictGet rest k

/-- Python `d[k] = v`: overwrite the first binding of `k`, else append a new
binding at the end (insertion order). -/
def dictSet {α : Type} (d : List (String × α)) (k : String) (v : α) :
    List (String × α) :=
  match d with
  | [] => [(k, v)]
  | (k2, v2) :: rest => if k2 = k then (k, v) :: rest else (k2, v2) :: dictSet rest k v

namespace VBDFValidator

/-- The `native` property: split the board's `PCI_DEVICE` text into lines,
skip empty lines and lines whose `validate_` result is falsy (`""`), skip a
match that starts with `00:00.0` (the host bridge), and collect the rest.
(The Python property appends into the cached `self.native_` on every call;
every use goes through `set(...)`, so the pure list of one pass is an
equivalent model.) -/
def native (s : VState) : List (List Char) :=
  s.board_lines.filterMap fun pci =>
    if pci = [] then none
    else
      match validate_ pci with
      | [] => none
      | m1 => if m1.take 7 = "00:00.0".toList then none else some m1

/-- The `vuart_vbdf` property: if the scenario configures
`hv/DEBUG_OPTIONS/VUART_VBDF`, a one-element list holding `validate_` of its
stripped text (possibly `""`); otherwise the empty list. -/
def vuart_vbdf (s : VState) : List (List Char) :=
  match s.debug_vuart with
  | none => []
  | some raw => [validate_ (pstrip raw)]

/-- Model of `validate_native(bdfs)`: `not set(bdfs) & set(self.native)`, i.e. the two
lists are disjoint as sets. -/
def validate_native (s : VState) (bdfs : List (List Char)) : Bool :=
  bdfs.all fun b => ¬ b ∈ native s

/-- Model of `valid_vuart_vbdf(bdfs)`: `not set(bdfs) & set(self.vuart_vbdf)`. -/
def valid_vuart_vbdf (s : VState) (bdfs : List (List Char)) : Bool :=
  bdfs.all fun b => ¬ b ∈ vuart_vbdf s

/-- Model of `validate_pci()`: `self.valid_vuart_vbdf(self.native)`. -/
def validate_pci (s : VState) : Bool :=
  valid_vuart_vbdf s (native s)

/-- The endpoint loop shared textually by `validate_vuart` and
`validate_ivshmem`, run on the endpoints in document order (the Python nested
loops over groups then endpoints visit exactly this flattened sequence, and an
early `return` leaves the whole method).  For each endpoint: validate its
vbdf text, run the load-order check (`ok none` models Python `None`, which is
falsy), and update the per-VM dict `vm_cfg`.
`.ok none` here models the method's early `return False`;
`.ok (some cfg)` means the loop finished with final dict `cfg`. -/
def loopEndpoints (s : VState) (vm_cfg : List (String × List (List Char))) :
    List Endpoint → Except PyErr (Option (List (String × List (List Char))))
  | [] => .ok (some vm_cfg)
  | p :: rest =>
    let vm_vbdf := validate_ (pstrip p.vbdf)
    match validate_load_order s.vms p.vm_name vm_vbdf with
    | .error e => .error e
    | .ok lo =>
      if lo = some true then
        match dictGet vm_cfg p.vm_name with
        | none => loopEndpoints s (dictSet vm_cfg p.vm_name [vm_vbdf]) rest
        | some lst =>
          if lst = [] then
            -- `if not vm_cfg.get(vm_name)`: an empty list is falsy too
            loopEndpoints s (dictSet vm_cfg p.vm_name [vm_vbdf]) rest
          else if vm_vbdf ∈ lst then
            .ok none
          else
            loopEndpoints s (dictSet vm_cfg p.vm_name (lst ++ [vm_vbdf])) rest
      else
        -- `if not validate_load_order(...)`: `None` and `False` both land here
        .ok none

/-- The tail shared by `validate_vuart` and `validate_ivshmem`: flatten
`vm_cfg`'s values (`self.*_vbdfs.extend(v)`), dedupe (`list(set(...))`), and
cross-check against the native set and the debug-UART vbdf. -/
def crossCheck (s : VState) (vm_cfg : List (String × List (List Char))) : Bool :=
  let vbdfs := (vm_cfg.flatMap Prod.snd).dedup
  if ¬ validate_native s vbdfs then false
  else valid_vuart_vbdf s vbdfs

/-- Model of `validate_vuart()`: `None` when no `vuart_connection` is configured, else
the endpoint loop followed by the cross-check. -/
def validate_vuart (s : VState) : Except PyErr (Option Bool) :=
  if s.vuart_connections = [] then
    .ok none
  else
    match loopEndpoints s [] (s.vuart_connections.flatMap Connection.endpoints) with
    | .error e => .error e
    | .ok none => .ok (some false)
    | .ok (some vm_cfg) => .ok (some (crossCheck s vm_cfg))

/-- Model of `validate_ivshmem()`: `None` when no `IVSHMEM_REGION` is configured, else
the same loop and cross-check over the regions' `IVSHMEM_VM` entries. -/
def validate_ivshmem (s : VState) : Except PyErr (Option Bool) :=
  if s.ivshmem_regions = [] then
    .ok none
  else
    match loopEndpoints s [] (s.ivshmem_regions.flatMap IvshmemRegion.ivshmem_vms) with
    | .error e => .error e
    | .ok none => .ok (some false)
    | .ok (some vm_cfg) => .ok (some (crossCheck s vm_cfg))

/-- The per-category report printed by `validate()` after the `None` keys are
deleted: `pci` is always present, `vuart`/`ivshmem` only when configured. -/
structure VReport where
  pci : Bool
  vuart : Option Bool
  ivshmem : Option Bool
deriving DecidableEq, Repr

/-- Model of `ret = True; for k, v in result.items(): ret = ret and v` over the report
with its `None` keys deleted. -/
def overallOf (r : VReport) : Bool :=
  r.pci
    && (match r.vuart with | some b => b | none => true)
    && (match r.ivshmem with | some b => b | none => true)

/-- Model of `validate()`: run the three category validators in order, build the
report (the dict it prints, with `None` keys deleted), and fold it into the
single returned boolean. -/
def validate (s : VState) : Except PyErr (VReport × Bool) :=
  let pci_result := validate_pci s
  match validate_vuart s with
  | .error e => .error e
  | .ok vuart_result =>
    match validate_ivshmem s with
    | .error e => .error e
    | .ok ivshmem_result =>
      let r : VReport := ⟨pci_result, vuart_result, ivshmem_result⟩
      .ok (r, overallOf r)

end VBDFValidator

/-! ## Spec-side definitions

These follow the wording of the specification (not the code) and are used to
compare the two where they differ. -/

/-- Following the spec's words for §4.1: the parser "trims surrounding
whitespace" and "matches against the canonical shape
`[0-9a-fA-F]{1,2}:[0-1][0-9A-Fa-f]\.[0-7]` immediately followed by anything" —
i.e. the trimmed string begins with the shape, with the rest of the string as
the ignored trailing annotation. -/
def matchesShapeSpec (s : List Char) : Bool :=
  (matchAt (pstrip s)).isSome

/-- The canonical shape occurs (anchored) at some position of `l`. -/
def shapeOccurs : List Char → Bool
  | [] => false
  | c :: rest => (matchAt (c :: rest)).isSome || shapeOccurs rest

/-- Holds when `m` is exactly a canonical `bb:dd.f` / `b:dd.f` identifier, with no
trailing text: the possible values of the regex group. -/
def isCanonicalBDF : List Char → Bool
  | [b1, b2, ':', d1, d2, '.', f] =>
    isHexChar b1 && isHexChar b2 && isDevHi d1 && isHexChar d2 && isFuncChar f
  | [b1, ':', d1, d2, '.', f] =>
    isHexChar b1 && isDevHi d1 && isHexChar d2 && isFuncChar f
  | _ => false

/-! ## Concrete configurations

Small concrete board/scenario records used to evaluate the model at specific
inputs. -/

open VBDFValidator

/-- Two distinct VMs, each assigned the same syntactically valid vuart address
`00:05.0`; the board has no native devices and no debug UART is set. -/
def twoVMSameAddr : VState :=
  { board_lines := []
    vms := [⟨"VM_A", "PRE_LAUNCHED_VM"⟩, ⟨"VM_B", "SERVICE_VM"⟩]
    debug_vuart := none
    vuart_connections := [⟨[⟨"VM_A", "00:05.0".toList⟩, ⟨"VM_B", "00:05.0".toList⟩]⟩]
    ivshmem_regions := [] }

/-- One post-launched VM whose single vuart endpoint carries an unparsable
address string. -/
def postBadAddr : VState :=
  { board_lines := []
    vms := [⟨"UOS1", "POST_LAUNCHED_VM"⟩]
    debug_vuart := none
    vuart_connections := [⟨[⟨"UOS1", "bad-vbdf".toList⟩]⟩]
    ivshmem_regions := [] }

/-- One service VM with two vuart endpoints whose addresses both fail to
parse. -/
def serviceTwoBadAddr : VState :=
  { board_lines := []
    vms := [⟨"SOS", "SERVICE_VM"⟩]
    debug_vuart := none
    vuart_connections := [⟨[⟨"SOS", "junk1".toList⟩, ⟨"SOS", "junk2".toList⟩]⟩]
    ivshmem_regions := [] }

/-- Native set `{00:1f.0, 00:02.0}` and a single vuart endpoint assigning
`00:1f.0` to the VM named `nm`, over an arbitrary VM list. -/
def nativeClash (vms : List VM) (nm : String) : VState :=
  { board_lines := ["00:1f.0 ISA bridge".toList, "00:02.0 VGA controller".toList]
    vms := vms
    debug_vuart := none
    vuart_connections := [⟨[⟨nm, "00:1f.0".toList⟩]⟩]
    ivshmem_regions := [] }

/-- The end-to-end scenario of §8: native devices `00:00.0`, `00:02.0`,
`00:1f.0`; one post-launched VM `UOS1` with vuart endpoints `00:05.0` and
`00:06.0`; no ivshmem region and no debug UART. -/
def endToEnd : VState :=
  { board_lines := ["00:00.0 Host bridge".toList, "00:02.0 VGA controller".toList,
      "00:1f.0 ISA bridge".toList]
    vms := [⟨"UOS1", "POST_LAUNCHED_VM"⟩]
    debug_vuart := none
    vuart_connections := [⟨[⟨"UOS1", "00:05.0".toList⟩, ⟨"UOS1", "00:06.0".toList⟩]⟩]
    ivshmem_regions := [] }

/-- An empty configuration: no native devices, no VMs, no category groups. -/
def emptyCfg : VState :=
  { board_lines := []
    vms := []
    debug_vuart := none
    vuart_connections := []
    ivshmem_regions := [] }

/-- A scenario whose vuart endpoint references the unknown VM name `GHOST`
while its ivshmem region is validly configured for the service VM. -/
def ghostVuart : VState :=
  { board_lines := []
    vms := [⟨"SOS", "SERVICE_VM"⟩]
    debug_vuart := none
    vuart_connections := [⟨[⟨"GHOST", "00:05.0".toList⟩]⟩]
    ivshmem_regions := [⟨[⟨"SOS", "00:09.0".toList⟩]⟩] }

/-- A one-VM list whose single VM is post-launched. -/
def onePostVM : List VM := [⟨"UOS1", "POST_LAUNCHED_VM"⟩]

/-! ## Helper lemmas -/

theorem isDevHi_cases {c : Char} (h : isDevHi c = true) : c = '0' ∨ c = '1' := by
  simpa [isDevHi] using h

theorem isDevHi_isHexChar {c : Char} (h : isDevHi c = true) : isHexChar c = true := by
  rcases isDevHi_cases h with h0 | h1 <;> subst_vars <;> decide

theorem isHexChar_not_space {c : Char} (h : isHexChar c = true) : isPySpace c = false := by
  by_contra hs
  simp only [Bool.not_eq_false, isPySpace, Bool.or_eq_true, decide_eq_true_eq] at hs
  rcases hs with ((((h1 | h1) | h1) | h1) | h1) | h1 <;> subst h1 <;> revert h <;> decide

theorem isFuncChar_not_space {c : Char} (h : isFuncChar c = true) : isPySpace c = false := by
  by_contra hs
  simp only [Bool.not_eq_false, isPySpace, Bool.or_eq_true, decide_eq_true_eq] at hs
  rcases hs with ((((h1 | h1) | h1) | h1) | h1) | h1 <;> subst h1 <;> revert h <;> decide

theorem parseHexStr_pair {d1 d2 : Char} (h1 : isHexChar d1 = true)
    (h2 : isHexChar d2 = true) :
    parseHexStr [d1, d2] = some (16 * hexVal d1 + hexVal d2) := by
  simp [parseHexStr, h1, h2, List.foldl]

/-- Evaluating `check_` on a canonical two-digit-bus identifier reads exactly the device
field. -/
theorem check_seven (b1 b2 d1 d2 f : Char) (h1 : isHexChar d1 = true)
    (h2 : isHexChar d2 = true) :
    check_ [b1, b2, ':', d1, d2, '.', f]
      = .ok (3 ≤ 16 * hexVal d1 + hexVal d2 && 16 * hexVal d1 + hexVal d2 < 31) := by
  simp [check_, parseHexStr_pair h1 h2]

/-- Evaluating `check_` on a canonical one-digit-bus identifier slices `[d2, '.']`, and
`int('0x' + ., 16)` raises `ValueError` on the dot. -/
theorem check_six (b1 d1 d2 f : Char) :
    check_ [b1, ':', d1, d2, '.', f] = .error .valueError := by
  simp [check_, parseHexStr, isHexChar]

/-- A vbdf that failed validation is the empty string, whose slice is empty:
`int('0x', 16)` raises `ValueError`. -/
theorem check_nil : check_ [] = .error .valueError := by decide

/-- When the first scenario VM matching `name` is post-launched,
`validate_load_order` returns exactly the result of `check_`. -/
theorem validate_load_order_found_post (vms : List VM) (name : String) (vm : VM)
    (x : List Char) (hf : vms.find? (fun v => v.name = name) = some vm)
    (hp : vm.load_order = "POST_LAUNCHED_VM") :
    validate_load_order vms name x = (check_ x).map some := by
  induction vms with
  | nil => simp [List.find?] at hf
  | cons v rest ih =>
    by_cases hn : v.name = name
    · simp only [List.find?_cons, hn, decide_eq_true_eq] at hf
      obtain rfl : v = vm := by simpa using hf
      simp [validate_load_order, hn, hp]
    · simp only [List.find?_cons, hn, decide_eq_true_eq] at hf
      simp [validate_load_order, hn, ih (by simpa [hn] using hf)]

/-- When no scenario VM matches `name`, the Python loop falls through and the
function returns `None`. -/
theorem validate_load_order_not_found (vms : List VM) (name : String)
    (x : List Char) (h : ∀ vm ∈ vms, vm.name ≠ name) :
    validate_load_order vms name x = .ok none := by
  induction vms with
  | nil => rfl
  | cons v rest ih =>
    have hv : v.name ≠ name := h v (by simp)
    simp [validate_load_order, hv, ih fun vm hm => h vm (by simp [hm])]

theorem matchAt2_isCanonical {l m : List Char} (h : matchAt2 l = some m) :
    isCanonicalBDF m = true := by
  unfold matchAt2 at h
  split at h
  · split at h
    · rename_i hg
      obtain rfl : _ = m := by simpa using h
      simpa [isCanonicalBDF] using hg
    · simp at h
  · simp at h

theorem matchAt1_isCanonical {l m : List Char} (h : matchAt1 l = some m) :
    isCanonicalBDF m = true := by
  unfold matchAt1 at h
  split at h
  · split at h
    · rename_i hg
      obtain rfl : _ = m := by simpa using h
      simpa [isCanonicalBDF] using hg
    · simp at h
  · simp at h

theorem matchAt_isCanonical {l m : List Char} (h : matchAt l = some m) :
    isCanonicalBDF m = true := by
  unfold matchAt at h
  cases hm : matchAt2 l with
  | some m2 =>
    rw [hm] at h
    have h2 : m2 = m := by simpa using h
    exact matchAt2_isCanonical (h2 ▸ hm)
  | none =>
    rw [hm] at h
    exact matchAt1_isCanonical h

theorem isCanonicalBDF_ne_nil {m : List Char} (h : isCanonicalBDF m = true) :
    m ≠ [] := by
  intro hm
  subst hm
  exact absurd h (by decide)

/-- A canonical identifier has no surrounding whitespace to strip. -/
theorem pstrip_canonical {m : List Char} (h : isCanonicalBDF m = true) :
    pstrip m = m := by
  unfold isCanonicalBDF at h
  split at h
  · rename_i b1 b2 d1 d2 f
    simp only [Bool.and_eq_true] at h
    obtain ⟨⟨⟨⟨hb1, hb2⟩, hd1⟩, hd2⟩, hf⟩ := h
    simp [pstrip, List.dropWhile, isHexChar_not_space hb1, isFuncChar_not_space hf]
  · rename_i b1 d1 d2 f
    simp only [Bool.and_eq_true] at h
    obtain ⟨⟨⟨hb1, hd1⟩, hd2⟩, hf⟩ := h
    simp [pstrip, List.dropWhile, isHexChar_not_space hb1, isFuncChar_not_space hf]
  · simp at h

/-- Matching a canonical identifier at its own head succeeds and returns the
whole identifier. -/
theorem matchAt_canonical {m : List Char} (h : isCanonicalBDF m = true) :
    matchAt m = some m := by
  unfold isCanonicalBDF at h
  split at h
  · rename_i b1 b2 d1 d2 f
    simp [matchAt, matchAt2, h]
  · rename_i b1 d1 d2 f
    simp only [Bool.and_eq_true] at h
    obtain ⟨⟨⟨hb1, hd1⟩, hd2⟩, hf⟩ := h
    rcases isDevHi_cases hd1 with rfl | rfl <;>
      simp [matchAt, matchAt2, matchAt1, hb1, hd2, hf, isDevHi]
  · simp at h

theorem matchAt_nil : matchAt [] = none := rfl

theorem searchShape_of_matchAt {l m : List Char} (h : matchAt l = some m) :
    searchShape l = some m := by
  cases l with
  | nil => simp [matchAt_nil] at h
  | cons c rest => simp [searchShape, h]

/-- The search succeeds exactly when the shape occurs at some position. -/
theorem searchShape_isSome_eq_shapeOccurs (l : List Char) :
    (searchShape l).isSome = shapeOccurs l := by
  induction l with
  | nil => rfl
  | cons c rest ih =>
    rw [searchShape, shapeOccurs]
    cases hm : matchAt (c :: rest) <;> simp [hm, ih]

/-- A successful search returns a canonical (hence non-empty) identifier. -/
theorem searchShape_isCanonical {l m : List Char} (h : searchShape l = some m) :
    isCanonicalBDF m = true := by
  induction l with
  | nil => simp [searchShape] at h
  | cons c rest ih =>
    rw [searchShape] at h
    cases hm : matchAt (c :: rest) with
    | some m1 =>
      rw [hm] at h
      have h1 : m1 = m := by simpa using h
      exact matchAt_isCanonical (h1 ▸ hm)
    | none => rw [hm] at h; exact ih h

/-- When `check_` does not raise, `validate_load_order` does not raise either:
it returns `None`, `True`, or the `check_` verdict. -/
theorem validate_load_order_cases (vms : List VM) (name : String) (x : List Char)
    (b : Bool) (h : check_ x = .ok b) :
    validate_load_order vms name x = .ok none
      ∨ validate_load_order vms name x = .ok (some true)
      ∨ validate_load_order vms name x = .ok (some b) := by
  induction vms with
  | nil => simp [validate_load_order]
  | cons v rest ih =>
    by_cases hn : v.name = name
    · by_cases hp : v.load_order = "POST_LAUNCHED_VM"
      · simp [validate_load_order, hn, hp, h, Except.map]
      · simp [validate_load_order, hn, hp]
    · simpa [validate_load_order, hn] using ih

theorem crossCheck_eq (s : VState) (cfg : List (String × List (List Char))) :
    crossCheck s cfg
      = (validate_native s ((cfg.flatMap Prod.snd).dedup)
          && valid_vuart_vbdf s ((cfg.flatMap Prod.snd).dedup)) := by
  unfold crossCheck
  cases h : validate_native s ((cfg.flatMap Prod.snd).dedup) <;> simp [h]

theorem overallOf_getD (r : VReport) :
    overallOf r = (r.pci && r.vuart.getD true && r.ivshmem.getD true) := by
  obtain ⟨p, v, i⟩ := r
  cases v <;> cases i <;> rfl

/-- Destructure a successful `validate()` run into its three category
results. -/
theorem validate_ok_destruct (s : VState) (r : VReport) (b : Bool)
    (h : validate s = .ok (r, b)) :
    validate_vuart s = .ok r.vuart ∧ validate_ivshmem s = .ok r.ivshmem
      ∧ r.pci = validate_pci s ∧ b = overallOf r := by
  unfold validate at h
  cases hv : validate_vuart s <;> rw [hv] at h
  · simp at h
  · cases hi : validate_ivshmem s <;> rw [hi] at h
    · simp at h
    · rw [Except.ok.injEq, Prod.mk.injEq] at h
      obtain ⟨hr, hb⟩ := h
      subst hr
      subst hb
      exact ⟨rfl, rfl, rfl, rfl⟩

/-- An endpoint whose VM name matches no scenario VM prevents the category
loop from completing: the category returns `False` at it (or an earlier
endpoint already failed or raised). -/
theorem loopEndpoints_unknown (s : VState) (p : Endpoint)
    (hunk : ∀ vm ∈ s.vms, vm.name ≠ p.vm_name) :
    ∀ (l : List Endpoint) (cfg : List (String × List (List Char))), p ∈ l →
      loopEndpoints s cfg l = .ok none ∨ ∃ e, loopEndpoints s cfg l = .error e := by
  intro l
  induction l with
  | nil => intro cfg h; simp at h
  | cons q rest ih =>
    intro cfg hmem
    rcases List.mem_cons.mp hmem with rfl | hmem'
    · have hlo : validate_load_order s.vms p.vm_name (validate_ (pstrip p.vbdf))
          = .ok none := validate_load_order_not_found s.vms p.vm_name _ hunk
      left
      simp [loopEndpoints, hlo]
    · simp only [loopEndpoints]
      cases hlo : validate_load_order s.vms q.vm_name (validate_ (pstrip q.vbdf)) with
      | error e => exact .inr ⟨e, rfl⟩
      | ok lo =>
        dsimp only
        by_cases hl : lo = some true
        · rw [if_pos hl]
          cases hd : dictGet cfg q.vm_name with
          | none => exact ih _ hmem'
          | some lst =>
            dsimp only
            by_cases hnil : lst = []
            · rw [if_pos hnil]
              exact ih _ hmem'
            · rw [if_neg hnil]
              by_cases hin : validate_ (pstrip q.vbdf) ∈ lst
              · rw [if_pos hin]
                exact .inl rfl
              · rw [if_neg hin]
                exact ih _ hmem'
        · rw [if_neg hl]
          exact .inl rfl

/-! ## Claim theorems -/

/-- C8 (counterexample): the claim "for every address string `s` that does not
match the canonical shape followed by anything, `parse(s)` is absent" is false
on the code: `"x00:02.0"` does not match the shape followed by anything (its
trimmed form does not begin with the shape), yet `validate_` returns the
non-absent `"00:02.0"`, because `re.search` finds the shape anywhere in the
string. -/
theorem prefix_garbage_still_parses :
    matchesShapeSpec "x00:02.0".toList = false
      ∧ validate_ "x00:02.0".toList = "00:02.0".toList
      ∧ validate_ "x00:02.0".toList ≠ [] := by
  refine ⟨by decide, by decide, by decide⟩

/-- C8 (amended): `parse(s)` is absent exactly when the canonical shape occurs
at no position of the trimmed string — the matcher searches anywhere
(`re.search`), so a non-matching prefix does not make the parse absent. -/
theorem parse_absent_iff_shape_nowhere (s : List Char) :
    validate_ s = [] ↔ shapeOccurs (pstrip s) = false := by
  unfold validate_
  cases hs : searchShape (pstrip s) with
  | none =>
    simp [← searchShape_isSome_eq_shapeOccurs, hs]
  | some m =>
    have hne : m ≠ [] := isCanonicalBDF_ne_nil (searchShape_isCanonical hs)
    simp [← searchShape_isSome_eq_shapeOccurs, hs, hne]

/-- C8 (witness): the amended equivalence evaluated on a string with no
occurrence of the shape. -/
theorem parse_absent_iff_shape_nowhere_witness :
    validate_ "garbage".toList = [] ↔ shapeOccurs (pstrip "garbage".toList) = false :=
  parse_absent_iff_shape_nowhere "garbage".toList

/-- C9: for every address string matching the canonical shape (trimmed string
beginning with the shape), the parse is present, and re-parsing the returned
canonical form gives the same result: parsing is idempotent. -/
theorem parse_present_and_idempotent (s : List Char)
    (h : matchesShapeSpec s = true) :
    validate_ s ≠ [] ∧ validate_ (validate_ s) = validate_ s := by
  obtain ⟨m, hm⟩ := Option.isSome_iff_exists.mp (by simpa [matchesShapeSpec] using h)
  have hval : validate_ s = m := by
    unfold validate_
    rw [searchShape_of_matchAt hm]
  have hcan : isCanonicalBDF m = true := matchAt_isCanonical hm
  have hidem : validate_ m = m := by
    unfold validate_
    rw [pstrip_canonical hcan, searchShape_of_matchAt (matchAt_canonical hcan)]
  exact ⟨hval ▸ isCanonicalBDF_ne_nil hcan, by rw [hval, hidem]⟩

/-- C9 (witness): parsing `"00:1f.0  Intel Corporation ISA bridge"` is present
and idempotent. -/
theorem parse_present_and_idempotent_witness :
    validate_ "00:1f.0  Intel Corporation ISA bridge".toList ≠ []
      ∧ validate_ (validate_ "00:1f.0  Intel Corporation ISA bridge".toList)
          = validate_ "00:1f.0  Intel Corporation ISA bridge".toList :=
  parse_present_and_idempotent _ (by decide)

/-- C2 (counterexample): the claim "for a PostLaunched VM the device field must
lie in [3, 30), device 30 → disallowed" is false on the code: the code tests
`t >= 3 and t < 31`, so device `0x1e = 30` is allowed; and on the syntactically
valid one-digit-bus address `a:04.0` the policy raises `ValueError` instead of
deciding. -/
theorem post_launched_device_30_allowed :
    validate_load_order onePostVM "UOS1" "00:1e.0".toList = .ok (some true)
      ∧ validate_load_order onePostVM "UOS1" "a:04.0".toList = .error .valueError := by
  refine ⟨by decide, by decide⟩

/-- C2 (amended): for a VM whose first matching scenario record is
PostLaunched and every syntactically valid address with a two-hex-digit bus,
the load-order policy allows the address iff its device field lies in the
half-open range [3, 31); so device 2 is disallowed and devices 3, 29 and 30
are allowed.  (On a valid one-digit-bus address the policy raises `ValueError`
rather than returning a verdict.) -/
theorem post_launched_device_range_3_31 (vms : List VM) (name : String) (vm : VM)
    (b1 b2 d1 d2 f : Char)
    (hf : vms.find? (fun v => v.name = name) = some vm)
    (hp : vm.load_order = "POST_LAUNCHED_VM")
    (hd1 : isDevHi d1 = true) (hd2 : isHexChar d2 = true) :
    validate_load_order vms name [b1, b2, ':', d1, d2, '.', f]
      = .ok (some (3 ≤ 16 * hexVal d1 + hexVal d2 && 16 * hexVal d1 + hexVal d2 < 31)) := by
  rw [validate_load_order_found_post vms name vm _ hf hp,
    check_seven b1 b2 d1 d2 f (isDevHi_isHexChar hd1) hd2]
  rfl

/-- C2 (witness): the amended range at the boundary devices 2, 3, 29 (`0x1d`)
and 30 (`0x1e`). -/
theorem post_launched_device_range_3_31_witness :
    validate_load_order onePostVM "UOS1" ['0', '0', ':', '0', '2', '.', '0'] = .ok (some false)
      ∧ validate_load_order onePostVM "UOS1" ['0', '0', ':', '0', '3', '.', '0'] = .ok (some true)
      ∧ validate_load_order onePostVM "UOS1" ['0', '0', ':', '1', 'd', '.', '0'] = .ok (some true)
      ∧ validate_load_order onePostVM "UOS1" ['0', '0', ':', '1', 'e', '.', '0'] = .ok (some true) := by
  have h2 := post_launched_device_range_3_31 onePostVM "UOS1" ⟨"UOS1", "POST_LAUNCHED_VM"⟩
    '0' '0' '0' '2' '0' (by decide) rfl (by decide) (by decide)
  have h3 := post_launched_device_range_3_31 onePostVM "UOS1" ⟨"UOS1", "POST_LAUNCHED_VM"⟩
    '0' '0' '0' '3' '0' (by decide) rfl (by decide) (by decide)
  have h29 := post_launched_device_range_3_31 onePostVM "UOS1" ⟨"UOS1", "POST_LAUNCHED_VM"⟩
    '0' '0' '1' 'd' '0' (by decide) rfl (by decide) (by decide)
  have h30 := post_launched_device_range_3_31 onePostVM "UOS1" ⟨"UOS1", "POST_LAUNCHED_VM"⟩
    '0' '0' '1' 'e' '0' (by decide) rfl (by decide) (by decide)
  exact ⟨by rw [h2]; decide, by rw [h3]; decide, by rw [h29]; decide, by rw [h30]; decide⟩

/-- C10: a parsed address whose bus has one hex digit slices characters 3..4,
which include the dot rather than the device field, and the load-order policy
for a PostLaunched VM raises `ValueError` on it; on a two-digit bus the slice
is the device field and the policy returns a verdict without raising. -/
theorem one_digit_bus_post_launched_value_error (vms : List VM) (name : String)
    (vm : VM) (m : List Char)
    (hf : vms.find? (fun v => v.name = name) = some vm)
    (hp : vm.load_order = "POST_LAUNCHED_VM")
    (hc : isCanonicalBDF m = true) :
    (m.length = 6 →
        '.' ∈ (m.drop 3).take 2
          ∧ validate_load_order vms name m = .error .valueError)
      ∧ (m.length = 7 → ∃ b, validate_load_order vms name m = .ok (some b)) := by
  rw [validate_load_order_found_post vms name vm _ hf hp]
  unfold isCanonicalBDF at hc
  split at hc
  · rename_i b1 b2 d1 d2 f
    simp only [Bool.and_eq_true] at hc
    refine ⟨by simp, fun _ => ?_⟩
    rw [check_seven b1 b2 d1 d2 f (isDevHi_isHexChar hc.1.1.2) hc.1.2]
    exact ⟨_, rfl⟩
  · rename_i b1 d1 d2 f
    refine ⟨fun _ => ⟨by simp, ?_⟩, by simp⟩
    rw [check_six b1 d1 d2 f]
    rfl
  · simp at hc

/-- C10 (witness): instantiated at the one-digit-bus address `a:05.0` (raises)
and the two-digit-bus address `00:05.0` (returns a verdict). -/
theorem one_digit_bus_post_launched_value_error_witness :
    ('.' ∈ ("a:05.0".toList.drop 3).take 2
        ∧ validate_load_order onePostVM "UOS1" "a:05.0".toList = .error .valueError)
      ∧ ∃ b, validate_load_order onePostVM "UOS1" "00:05.0".toList = .ok (some b) := by
  have h6 := one_digit_bus_post_launched_value_error onePostVM "UOS1"
    ⟨"UOS1", "POST_LAUNCHED_VM"⟩ "a:05.0".toList (by decide) rfl (by decide)
  have h7 := one_digit_bus_post_launched_value_error onePostVM "UOS1"
    ⟨"UOS1", "POST_LAUNCHED_VM"⟩ "00:05.0".toList (by decide) rfl (by decide)
  exact ⟨h6.1 (by decide), h7.2 (by decide)⟩

/-- C1 (counterexample): the claim "two distinct VMs assigned the identical
syntactically valid, load-order-allowed address in the same category give a
category result of `false`" is false on the code: `VM_A` and `VM_B` are
distinct, both are assigned the valid, allowed address `00:05.0` in the vuart
category, yet the category result is `True` — the per-machine dict only
detects a duplicate within one machine, and `list(set(...))` silently merges
the cross-machine duplicate before the native cross-check. -/
theorem two_vms_same_vbdf_category_true :
    ("VM_A" : String) ≠ "VM_B"
      ∧ validate_ (pstrip "00:05.0".toList) = "00:05.0".toList
      ∧ validate_load_order twoVMSameAddr.vms "VM_A" "00:05.0".toList = .ok (some true)
      ∧ validate_load_order twoVMSameAddr.vms "VM_B" "00:05.0".toList = .ok (some true)
      ∧ validate_vuart twoVMSameAddr = .ok (some true) := by
  refine ⟨by decide, by decide, by decide, by decide, by decide⟩

/-- C1 (amended): a duplicate address is a category failure only per machine:
if the *same* VM is assigned the identical (post-validation) address by two
consecutive endpoints of a category, the category result is `false`.
(Identical addresses on two distinct VMs are merged by `list(set(...))` and do
not by themselves fail the category, as the counterexample shows.) -/
theorem same_vm_duplicate_vbdf_category_false (s : VState) (p1 p2 : Endpoint)
    (rest : List Endpoint)
    (hflat : s.vuart_connections.flatMap Connection.endpoints = p1 :: p2 :: rest)
    (hname : p2.vm_name = p1.vm_name)
    (hvbdf : validate_ (pstrip p2.vbdf) = validate_ (pstrip p1.vbdf))
    (hlo : validate_load_order s.vms p1.vm_name (validate_ (pstrip p1.vbdf))
        = .ok (some true)) :
    validate_vuart s = .ok (some false) := by
  have hc : s.vuart_connections ≠ [] := by
    intro h0
    rw [h0] at hflat
    simp at hflat
  unfold validate_vuart
  rw [if_neg hc, hflat]
  simp only [loopEndpoints, hlo, hname, hvbdf]
  simp [dictGet, dictSet]

/-- C1 (witness): the amended statement at a concrete scenario in which the
service VM is assigned `00:05.0` twice. -/
theorem same_vm_duplicate_vbdf_category_false_witness :
    validate_vuart
      { board_lines := []
        vms := [⟨"SOS", "SERVICE_VM"⟩]
        debug_vuart := none
        vuart_connections := [⟨[⟨"SOS", "00:05.0".toList⟩, ⟨"SOS", "00:05.0".toList⟩]⟩]
        ivshmem_regions := [] } = .ok (some false) :=
  same_vm_duplicate_vbdf_category_false _ ⟨"SOS", "00:05.0".toList⟩
    ⟨"SOS", "00:05.0".toList⟩ [] (by decide) rfl rfl (by decide)

/-- C3 (counterexample): the claim "an endpoint whose raw address fails to
parse is skipped and never becomes a collision verdict, a category failure, or
a crash, regardless of launch class" is false on the code: the single vuart
endpoint of the post-launched VM `UOS1` carries the unparsable address
`bad-vbdf` (so `validate_` returns the absent `""`), and `validate_vuart`
raises `ValueError` — `check_` slices the empty string and calls
`int('0x', 16)`. -/
theorem unparsable_vbdf_post_launched_raises :
    validate_ (pstrip "bad-vbdf".toList) = []
      ∧ validate_vuart postBadAddr = .error .valueError
      ∧ validate postBadAddr = .error .valueError := by
  refine ⟨by decide, by decide, by decide⟩

/-- C3 (amended): a failed parse is not skipped — the empty string takes the
place of the address: when the owning VM's first matching record is
post-launched the load-order check raises `ValueError` (so a leading
unparsable endpoint crashes the category), and when it is not post-launched
the empty string is recorded like an address, so two unparsable endpoints on
one such VM are a duplicate and fail the category. -/
theorem unparsable_vbdf_not_skipped :
    (∀ (s : VState) (p : Endpoint) (rest : List Endpoint) (vm : VM),
        s.vuart_connections.flatMap Connection.endpoints = p :: rest →
        validate_ (pstrip p.vbdf) = [] →
        s.vms.find? (fun v => v.name = p.vm_name) = some vm →
        vm.load_order = "POST_LAUNCHED_VM" →
        validate_vuart s = .error .valueError)
      ∧ validate_vuart serviceTwoBadAddr = .ok (some false) := by
  refine ⟨?_, by decide⟩
  intro s p rest vm hflat hbad hf hp
  have hc : s.vuart_connections ≠ [] := by
    intro h0
    rw [h0] at hflat
    simp at hflat
  have hlo : validate_load_order s.vms p.vm_name (validate_ (pstrip p.vbdf))
      = .error .valueError := by
    rw [validate_load_order_found_post s.vms p.vm_name vm _ hf hp, hbad, check_nil]
    rfl
  unfold validate_vuart
  rw [if_neg hc, hflat]
  simp [loopEndpoints, hlo]

/-- C3 (witness): the amended crash case at the concrete `postBadAddr`
scenario. -/
theorem unparsable_vbdf_not_skipped_witness :
    validate_vuart postBadAddr = .error .valueError :=
  unparsable_vbdf_not_skipped.1 postBadAddr ⟨"UOS1", "bad-vbdf".toList⟩ []
    ⟨"UOS1", "POST_LAUNCHED_VM"⟩ (by decide) (by decide) (by decide) rfl

/-- C4: when the endpoint loop of a configured category finishes without an
early failure, the category result is `true` iff the category's deduplicated
flat address set is disjoint from the native device set and from the reserved
debug-UART address (i.e. `false` exactly when it intersects either); and with
native set `{00:1f.0, 00:02.0}`, a vuart assignment of `00:1f.0` to any VM
over any VM list makes the vuart result `false`. -/
theorem vuart_cross_check_characterization :
    (∀ (s : VState) (vm_cfg : List (String × List (List Char))),
        s.vuart_connections ≠ [] →
        loopEndpoints s [] (s.vuart_connections.flatMap Connection.endpoints)
          = .ok (some vm_cfg) →
        validate_vuart s
          = .ok (some (validate_native s ((vm_cfg.flatMap Prod.snd).dedup)
              && valid_vuart_vbdf s ((vm_cfg.flatMap Prod.snd).dedup))))
      ∧ ∀ (vms : List VM) (nm : String),
          validate_vuart (nativeClash vms nm) = .ok (some false) := by
  constructor
  · intro s vm_cfg hc hloop
    unfold validate_vuart
    rw [if_neg hc, hloop]
    dsimp only
    rw [crossCheck_eq]
  · intro vms nm
    have hck : check_ ['0', '0', ':', '1', 'f', '.', '0'] = .ok false := by decide
    have hvv : validate_ (pstrip ['0', '0', ':', '1', 'f', '.', '0'])
        = ['0', '0', ':', '1', 'f', '.', '0'] := by decide
    have hnat : validate_native (nativeClash vms nm) [['0', '0', ':', '1', 'f', '.', '0']]
        = false := rfl
    have hcross : crossCheck (nativeClash vms nm)
        [(nm, [['0', '0', ':', '1', 'f', '.', '0']])] = false := by
      rw [crossCheck_eq]
      have hded : (([(nm, [['0', '0', ':', '1', 'f', '.', '0']])]).flatMap Prod.snd).dedup
          = [['0', '0', ':', '1', 'f', '.', '0']] := by simp
      rw [hded, hnat]
      simp
    unfold validate_vuart
    rw [if_neg (by simp [nativeClash])]
    have hflat : (nativeClash vms nm).vuart_connections.flatMap Connection.endpoints
        = [⟨nm, ['0', '0', ':', '1', 'f', '.', '0']⟩] := by simp [nativeClash]
    rw [hflat]
    simp only [loopEndpoints, hvv]
    rcases validate_load_order_cases vms nm ['0', '0', ':', '1', 'f', '.', '0'] false hck
        with h | h | h <;>
      rw [show (nativeClash vms nm).vms = vms from rfl, h]
    · simp
    · simp only [reduceIte, dictGet, dictSet, loopEndpoints]
      rw [hcross]
    · simp

/-- C4 (witness): the characterization applied to the end-to-end scenario
(whose loop completes with `UOS1 ↦ [00:05.0, 00:06.0]`), and the concrete
native-collision instance with a service VM named `A`. -/
theorem vuart_cross_check_characterization_witness :
    validate_vuart endToEnd
      = .ok (some (validate_native endToEnd
            (([("UOS1", ["00:05.0".toList, "00:06.0".toList])].flatMap Prod.snd).dedup)
          && valid_vuart_vbdf endToEnd
            (([("UOS1", ["00:05.0".toList, "00:06.0".toList])].flatMap Prod.snd).dedup)))
      ∧ validate_vuart (nativeClash [⟨"A", "SERVICE_VM"⟩] "A") = .ok (some false) :=
  ⟨vuart_cross_check_characterization.1 endToEnd
      [("UOS1", ["00:05.0".toList, "00:06.0".toList])] (by decide) (by decide),
    vuart_cross_check_characterization.2 [⟨"A", "SERVICE_VM"⟩] "A"⟩

/-- C5: the end-to-end scenario — native devices `{00:00.0, 00:02.0, 00:1f.0}`
with the root `00:00.0` excluded giving `{00:02.0, 00:1f.0}`, one
post-launched VM `UOS1` with vuart endpoints `00:05.0` and `00:06.0`, and no
ivshmem configured — yields the report `pci = true`, `vuart = true`, ivshmem
absent, and overall verdict `true`. -/
theorem end_to_end_report :
    native endToEnd = ["00:02.0".toList, "00:1f.0".toList]
      ∧ validate endToEnd = .ok (⟨true, some true, none⟩, true) := by
  refine ⟨by decide, by decide⟩

/-- C6: a category with zero configured groups is reported as absent (its key
omitted, not `false`), and the overall verdict is the conjunction of exactly
the present entries — `pci` always, each configured category's boolean, and an
absent category contributing nothing (`getD true`). -/
theorem absent_category_omitted_overall_and (s : VState) (r : VReport) (b : Bool)
    (h : validate s = .ok (r, b)) :
    (s.vuart_connections = [] → r.vuart = none)
      ∧ (s.ivshmem_regions = [] → r.ivshmem = none)
      ∧ r.pci = validate_pci s
      ∧ b = (r.pci && r.vuart.getD true && r.ivshmem.getD true) := by
  obtain ⟨hv, hi, hp, hb⟩ := validate_ok_destruct s r b h
  refine ⟨?_, ?_, hp, by rw [hb, overallOf_getD]⟩
  · intro h0
    have : validate_vuart s = .ok none := by unfold validate_vuart; rw [if_pos h0]
    have := hv.symm.trans this
    simpa using this
  · intro h0
    have : validate_ivshmem s = .ok none := by unfold validate_ivshmem; rw [if_pos h0]
    have := hi.symm.trans this
    simpa using this

/-- C6 (witness): the empty configuration — both category keys absent, and the
overall verdict equal to the `pci` entry alone. -/
theorem absent_category_omitted_overall_and_witness :
    validate emptyCfg = .ok (⟨true, none, none⟩, true)
      ∧ (VReport.mk true none none).vuart = none
      ∧ (VReport.mk true none none).ivshmem = none
      ∧ true = ((VReport.mk true none none).pci
          && (VReport.mk true none none).vuart.getD true
          && (VReport.mk true none none).ivshmem.getD true) := by
  have h := absent_category_omitted_overall_and emptyCfg ⟨true, none, none⟩ true (by decide)
  exact ⟨by decide, h.1 rfl, h.2.1 rfl, h.2.2.2⟩

/-- C7: an assignment referencing a VM name absent from the scenario's VM list
makes its category's result `false` whenever the category produces a result at
all (it may only otherwise raise on an earlier endpoint), and the other
category is still validated on its own: a successful `validate()` run always
carries `validate_ivshmem`'s own result in the report, whatever `vuart`
returned. -/
theorem unknown_vm_category_false_other_runs :
    (∀ (s : VState) (p : Endpoint) (r : Option Bool),
        p ∈ s.vuart_connections.flatMap Connection.endpoints →
        (∀ vm ∈ s.vms, vm.name ≠ p.vm_name) →
        validate_vuart s = .ok r → r = some false)
      ∧ ∀ (s : VState) (rep : VReport) (b : Bool),
          validate s = .ok (rep, b) → validate_ivshmem s = .ok rep.ivshmem := by
  constructor
  · intro s p r hmem hunk hok
    have hc : s.vuart_connections ≠ [] := by
      intro h0
      rw [h0] at hmem
      simp at hmem
    unfold validate_vuart at hok
    rw [if_neg hc] at hok
    rcases loopEndpoints_unknown s p hunk
        (s.vuart_connections.flatMap Connection.endpoints) [] hmem with h | ⟨e, h⟩ <;>
      rw [h] at hok
    · simpa using hok.symm
    · simp at hok
  · intro s rep b h
    exact (validate_ok_destruct s rep b h).2.1

/-- C7 (witness): in `ghostVuart` the vuart endpoint references the unknown
name `GHOST`, the vuart category reports `false`, and the ivshmem category
still produces its own result `true`. -/
theorem unknown_vm_category_false_other_runs_witness :
    (some false : Option Bool) = some false
      ∧ validate_ivshmem ghostVuart = .ok (VReport.mk true (some false) (some true)).ivshmem := by
  refine ⟨unknown_vm_category_false_other_runs.1 ghostVuart ⟨"GHOST", "00:05.0".toList⟩
      (some false) (by decide) (by decide) (by decide),
    unknown_vm_category_false_other_runs.2 ghostVuart ⟨true, some false, some true⟩
      false (by decide)⟩
